import Mathlib

/-
Shallow embedding of the server-side resource-handle layer of a Wayland
protocol library (src/wayland-server/src/resource.rs).

The public handle type `Resource<I>` is a thin wrapper around a backend
registry entry (`ResourceInner`).  The backend itself is not part of the
sources at hand, only its caller: the per-entry state and the operations
delegated to the backend (`is_alive`, `version`, `equals`, `same_client_as`,
`user_data`, `mark_dead`, `assign`, `assign_destructor`) are therefore
modelled from the specification, while `Resource::send`, `is_external`,
`c_ptr` and the `Clone`/`PartialEq` impls are translated from the source.

Machine integers (`u32` ids and versions) are modelled as `Nat`: the code
performs no arithmetic on them, only comparisons, so overflow is irrelevant.
Panics are modelled as explicit result constructors.
-/

namespace WaylandServer

/-- Interface descriptor: static per-protocol metadata (consumed external
collaborator; only the parts the handle layer reads are kept). -/
structure Interface where
  name : String
  maxVersion : Nat
deriving DecidableEq

/-- An event message instance as the handle layer observes it: its opcode
(`msg.opcode()`) and the minimum interface version that the event requires
(`msg.since()`). -/
structure EventMsg where
  opcode : Nat
  since : Nat
deriving DecidableEq

/-- Modelled from the spec: a registry entry, the canonical state of one
protocol object owned by the backend (`ResourceInner` is not in the sources
at hand).  Fields follow §3 of the spec: negotiated `version`, monotonic
`alive` flag, owning `client` (`none` when never bound), a set-once
type-erased user-data slot, and the two set-at-most-once filters.
`external` marks objects owned by a foreign native library (delegating
backend only); `extVersion` is the version read through to the external
owner, `none` when the owner provides no version tracking.  Filter values
and user-data payloads are abstracted as `Nat` tokens. -/
structure Entry where
  id : Nat
  version : Nat
  alive : Bool
  external : Bool
  extVersion : Option Nat
  client : Option Nat
  userData : Option Nat
  requestFilter : Option Nat
  destructorFilter : Option Nat
deriving DecidableEq

/-- Modelled from the spec: `ResourceInner::is_alive`.  Per the source doc
comment of `Resource::is_alive`, the result is `false` when the object has
been destroyed and also when the object is not managed by this library
(external objects have no tracked lifetime). -/
def Entry.is_alive (e : Entry) : Bool :=
  if e.external then false else e.alive

/-- Modelled from the spec: `ResourceInner::version`.  Per the source doc
comment, returns 0 on dead objects; per the spec, externally unmanaged
objects without version tracking also report 0, while tracked external
objects report the version read through to the external owner. -/
def Entry.versionF (e : Entry) : Nat :=
  if e.external then
    match e.extVersion with
    | some v => v
    | none => 0
  else if e.alive then e.version else 0

/-- Modelled from the spec: the user-data slot is shared by every handle to
the entry and reading it always succeeds, dead or alive. -/
def Entry.user_dataF (e : Entry) : Option Nat :=
  e.userData

/-- Modelled from the spec: the user-data slot is initialized at most once
(first typed access fixes it); a second store leaves the slot untouched.
Returns the success flag together with the updated entry. -/
def Entry.setUserData (e : Entry) (v : Nat) : Bool × Entry :=
  match e.userData with
  | some _ => (false, e)
  | none => (true, { e with userData := some v })

/-- Modelled from the spec: `ResourceInner::client`, `none` when the entry
is no longer alive. -/
def Entry.clientF (e : Entry) : Option Nat :=
  if e.is_alive then e.client else none

/-- Modelled from the spec: `ResourceInner::same_client_as` — true only when
both sides still resolve to a client and those clients coincide; per the
source doc comment, always false when either side is dead. -/
def Entry.same_client_as (e1 e2 : Entry) : Bool :=
  match e1.clientF, e2.clientF with
  | some c1, some c2 => c1 == c2
  | _, _ => false

/-- Modelled from the spec: `mark_dead` is idempotent; the first call flips
`alive` and yields the registered destructor filter for its one invocation,
a second call is a no-op.  The second component reports which filter (if
any) fires. -/
def Entry.mark_dead (e : Entry) : Entry × Option Nat :=
  if e.alive then ({ e with alive := false }, e.destructorFilter)
  else (e, none)

/-- Modelled from the spec: `ResourceInner::assign` registers the one-time
request filter; assigning on an already-filtered entry fails and leaves the
entry unchanged.  Returns the success flag with the updated entry. -/
def Entry.assignF (e : Entry) (f : Nat) : Bool × Entry :=
  match e.requestFilter with
  | some _ => (false, e)
  | none => (true, { e with requestFilter := some f })

/-- Modelled from the spec: `ResourceInner::assign_destructor`, the same
set-at-most-once discipline for the destructor filter. -/
def Entry.assign_destructorF (e : Entry) (f : Nat) : Bool × Entry :=
  match e.destructorFilter with
  | some _ => (false, e)
  | none => (true, { e with destructorFilter := some f })

/-- Outcome of `Resource::send`: early return on a dead object (nothing
transmitted), a version-gate violation (the source panics there), or the
event handed to the backend for transmission (`self.inner.send::<I>(msg)`). -/
inductive SendResult where
  | noop
  | fault
  | sent (opcode : Nat)
deriving DecidableEq

/-- Translated from `Resource::send` (resource.rs lines 50-75), acting on
the entry the handle names.  `nativeLib` mirrors the
`cfg(feature = "native_lib")` conditional compilation: with the feature the
early return is taken only when the object is neither external nor alive;
without it, whenever the object is not alive.  Past the liveness gate the
event faults when `msg.since() > self.version()` and is transmitted
otherwise. -/
def sendF (nativeLib : Bool) (e : Entry) (msg : EventMsg) : SendResult :=
  if nativeLib then
    if !e.external && !e.is_alive then SendResult.noop
    else if msg.since > e.versionF then SendResult.fault
    else SendResult.sent msg.opcode
  else
    if !e.is_alive then SendResult.noop
    else if msg.since > e.versionF then SendResult.fault
    else SendResult.sent msg.opcode

/-- Outcome of a native-interop-only method: the value, or the documented
unsupported-operation panic raised when the `native_lib` feature is off. -/
inductive NativeResult (α : Type) where
  | ok (val : α)
  | unsupported (msg : String)
deriving DecidableEq

/-- The exact panic message of the non-native branches of `is_external`,
`c_ptr`, `init_from_c_ptr`, `from_c_ptr` and `make_child_for`. -/
def cInterfacingPanicMsg : String :=
  "[wayland-server] C interfacing methods are not available without the `native_lib` feature"

/-- Translated from `Resource::is_external` (resource.rs lines 146-157):
with the `native_lib` feature it reads the backend's external flag, without
it it panics with the documented message, regardless of the entry's state. -/
def is_externalF (nativeLib : Bool) (e : Entry) : NativeResult Bool :=
  if nativeLib then NativeResult.ok e.external
  else NativeResult.unsupported cInterfacingPanicMsg

/-- Translated from `Resource::c_ptr` (resource.rs lines 167-178): with the
`native_lib` feature it returns the raw pointer (abstracted here as the
entry id), without it it panics with the documented message, regardless of
the entry's state. -/
def c_ptrF (nativeLib : Bool) (e : Entry) : NativeResult Nat :=
  if nativeLib then NativeResult.ok e.id
  else NativeResult.unsupported cInterfacingPanicMsg

/-- The registry of one client connection: entries indexed by their slot.
Slots are never recycled, so a slot index is an entry identity. -/
abbrev Registry := List Entry

/-- Translated from the `Resource<I>` struct (resource.rs lines 24-27): a
handle carries only a reference to the registry entry it names plus a
phantom interface tag.  Many handles may name the same entry. -/
structure Resource (I : Interface) where
  entryRef : Nat

/-- Translated from `Resource::equals` (resource.rs lines 95-97): entry
identity, delegated to `ResourceInner::equals`. -/
def Resource.equals {I : Interface} (a b : Resource I) : Bool :=
  a.entryRef == b.entryRef

/-- Translated from the `PartialEq` impl (resource.rs lines 29-33):
`a == b` is defined as `a.equals(b)`.  Handles of distinct interface tags
have distinct types, so a cross-interface comparison does not elaborate. -/
def Resource.eqF {I : Interface} (a b : Resource I) : Bool :=
  Resource.equals a b

instance {I : Interface} : BEq (Resource I) :=
  ⟨Resource.eqF⟩

/-- Translated from the `Clone` impl (resource.rs lines 293-300): cloning
clones the handle only, yielding a handle to the same registry entry. -/
def Resource.cloneF {I : Interface} (h : Resource I) : Resource I :=
  { entryRef := h.entryRef }

/-- Lookup of the entry a slot names. -/
def getEntry (r : Registry) (n : Nat) : Option Entry :=
  r.get? n

/-- Pointwise update of one registry slot. -/
def modifyEntry : Registry → Nat → (Entry → Entry) → Registry
  | [], _, _ => []
  | e :: rest, 0, f => f e :: rest
  | e :: rest, n + 1, f => e :: modifyEntry rest n f

/-- Marking the object in slot `n` dead, as the backend does on a destroy
request or a client disconnect. -/
def markDeadAt (r : Registry) (n : Nat) : Registry :=
  modifyEntry r n (fun e => (e.mark_dead).1)

/-- Liveness as observed through a slot: a missing slot observes dead. -/
def is_aliveAt (r : Registry) (n : Nat) : Bool :=
  match getEntry r n with
  | some e => e.is_alive
  | none => false

/-- Translated from `Resource::is_alive` (resource.rs lines 83-85), read
through the registry entry the handle names. -/
def Resource.is_aliveH {I : Interface} (r : Registry) (h : Resource I) : Bool :=
  is_aliveAt r h.entryRef

/-- Modelled from the spec: the entry-level state transitions the backend
performs after creation — destruction, the two one-time filter assignments,
and initializing the user-data slot. -/
inductive EntryStep : Entry → Entry → Prop where
  | mark_dead (e : Entry) : EntryStep e (e.mark_dead).1
  | assign (e : Entry) (f : Nat) : EntryStep e (e.assignF f).2
  | assign_destructor (e : Entry) (f : Nat) : EntryStep e (e.assign_destructorF f).2
  | setUserData (e : Entry) (v : Nat) : EntryStep e (e.setUserData v).2

/-- Modelled from the spec: the registry-level transitions — any entry-level
operation applied to one slot, or creation of a fresh entry in a new slot. -/
inductive RegStep : Registry → Registry → Prop where
  | mark_dead (r : Registry) (n : Nat) : RegStep r (markDeadAt r n)
  | assign (r : Registry) (n f : Nat) :
      RegStep r (modifyEntry r n (fun e => (e.assignF f).2))
  | assign_destructor (r : Registry) (n f : Nat) :
      RegStep r (modifyEntry r n (fun e => (e.assign_destructorF f).2))
  | setUserData (r : Registry) (n v : Nat) :
      RegStep r (modifyEntry r n (fun e => (e.setUserData v).2))
  | create (r : Registry) (e : Entry) : RegStep r (r ++ [e])

/-- A live managed entry, for concrete evaluations: version 3, client 1,
empty user data, no filters. -/
def entLive : Entry :=
  { id := 7, version := 3, alive := true, external := false, extVersion := none,
    client := some 1, userData := none, requestFilter := none, destructorFilter := none }

/-- A dead managed entry on client 1. -/
def entDead : Entry :=
  { id := 8, version := 3, alive := false, external := false, extVersion := none,
    client := some 1, userData := none, requestFilter := none, destructorFilter := none }

/-- A second dead managed entry on the same client 1. -/
def entDead2 : Entry :=
  { id := 9, version := 2, alive := false, external := false, extVersion := none,
    client := some 1, userData := none, requestFilter := none, destructorFilter := none }

/-- An externally-owned entry (delegating backend) whose external owner
tracks version 3. -/
def entForeign : Entry :=
  { id := 5, version := 0, alive := false, external := true, extVersion := some 3,
    client := none, userData := none, requestFilter := none, destructorFilter := none }

/-- A sample interface tag for concrete handles. -/
def wlOutput : Interface :=
  { name := "wl_output", maxVersion := 3 }

theorem mark_dead_eq (e : Entry) : (e.mark_dead).1 = { e with alive := false } := by
  cases e with
  | mk id ver alive ext extv cl ud rf df => cases alive <;> simp [Entry.mark_dead]

theorem mark_dead_is_alive (e : Entry) : ((e.mark_dead).1).is_alive = false := by
  rw [mark_dead_eq]
  simp [Entry.is_alive]

theorem assignF_snd (e : Entry) (f : Nat) :
    ((e.assignF f).2).is_alive = e.is_alive ∧ ((e.assignF f).2).alive = e.alive
    ∧ ((e.assignF f).2).version = e.version ∧ ((e.assignF f).2).extVersion = e.extVersion
    ∧ ((e.assignF f).2).external = e.external := by
  cases h : e.requestFilter <;> simp [Entry.assignF, h, Entry.is_alive]

theorem assign_destructorF_snd (e : Entry) (f : Nat) :
    ((e.assign_destructorF f).2).is_alive = e.is_alive
    ∧ ((e.assign_destructorF f).2).alive = e.alive
    ∧ ((e.assign_destructorF f).2).version = e.version
    ∧ ((e.assign_destructorF f).2).extVersion = e.extVersion
    ∧ ((e.assign_destructorF f).2).external = e.external := by
  cases h : e.destructorFilter <;> simp [Entry.assign_destructorF, h, Entry.is_alive]

theorem setUserData_snd (e : Entry) (v : Nat) :
    ((e.setUserData v).2).is_alive = e.is_alive ∧ ((e.setUserData v).2).alive = e.alive
    ∧ ((e.setUserData v).2).version = e.version
    ∧ ((e.setUserData v).2).extVersion = e.extVersion
    ∧ ((e.setUserData v).2).external = e.external := by
  cases h : e.userData <;> simp [Entry.setUserData, h, Entry.is_alive]

theorem getEntry_modifyEntry (r : Registry) (n m : Nat) (f : Entry → Entry) :
    getEntry (modifyEntry r n f) m =
      if m = n then (getEntry r n).map f else getEntry r m := by
  induction r generalizing n m with
  | nil => simp [modifyEntry, getEntry]
  | cons e rest ih =>
    cases n with
    | zero =>
      cases m with
      | zero => simp [modifyEntry, getEntry]
      | succ k => simp [modifyEntry, getEntry]
    | succ j =>
      cases m with
      | zero => simp [modifyEntry, getEntry]
      | succ k =>
        have := ih j k
        simp only [modifyEntry, getEntry, List.get?] at this ⊢
        rw [this]
        by_cases hkj : k = j <;> simp [hkj]

theorem getEntry_append (r r2 : Registry) (n : Nat) (h : n < r.length) :
    getEntry (r ++ r2) n = getEntry r n := by
  induction r generalizing n with
  | nil => simp at h
  | cons e rest ih =>
    cases n with
    | zero => simp [getEntry]
    | succ k =>
      simp only [getEntry, List.cons_append, List.get?]
      exact ih k (by simpa using h)

theorem is_alive_dissect (e : Entry) (h : e.is_alive = true) :
    e.external = false ∧ e.alive = true := by
  cases hx : e.external with
  | true => simp [Entry.is_alive, hx] at h
  | false =>
    simp [Entry.is_alive, hx] at h
    exact ⟨rfl, h⟩

theorem versionF_of_alive (e : Entry) (h : e.is_alive = true) :
    e.versionF = e.version := by
  obtain ⟨hx, ha⟩ := is_alive_dissect e h
  simp [Entry.versionF, hx, ha]

/-- C1: on a live resource handle, `send` faults exactly when the event's
minimum required version `msg.since()` strictly exceeds the entry's
negotiated version, and otherwise proceeds past both gates and delivers the
event to the backend — under either conditional-compilation variant. -/
theorem send_version_gating (nativeLib : Bool) (e : Entry) (msg : EventMsg)
    (halive : e.is_alive = true) :
    (msg.since > e.version → sendF nativeLib e msg = SendResult.fault)
    ∧ (msg.since ≤ e.version → sendF nativeLib e msg = SendResult.sent msg.opcode) := by
  obtain ⟨hx, ha⟩ := is_alive_dissect e halive
  have hv := versionF_of_alive e halive
  constructor
  · intro hgt
    cases nativeLib <;> simp [sendF, halive, hv, hgt]
  · intro hle
    cases nativeLib <;> simp [sendF, halive, hv, Nat.not_lt.mpr hle]

theorem send_version_gating_witness :
    entLive.is_alive = true
    ∧ sendF false entLive { opcode := 2, since := 4 } = SendResult.fault
    ∧ sendF false entLive { opcode := 2, since := 3 } = SendResult.sent 2 := by
  refine ⟨by decide, ?_, ?_⟩
  · exact (send_version_gating false entLive { opcode := 2, since := 4 } (by decide)).1
      (by decide)
  · exact (send_version_gating false entLive { opcode := 2, since := 3 } (by decide)).2
      (by decide)

/-- C2 counterexample: under the `native_lib` variant, the externally-owned
entry `entForeign` has `is_alive() = false`, yet `send` is not a silent
no-op — the event is transmitted. -/
theorem send_dead_not_always_noop :
    entForeign.is_alive = false
    ∧ sendF true entForeign { opcode := 0, since := 1 } = SendResult.sent 0 := by
  decide

/-- C2 (amended): on a handle that is not externally owned, if the entry is
dead (`is_alive() = false`) then `send` of any event — including one whose
minimum version exceeds the entry's version — is a silent no-op under either
conditional-compilation variant; under `native_lib`, externally-owned
handles also report `is_alive() = false` but `send` proceeds instead. -/
theorem send_dead_noop (nativeLib : Bool) (e : Entry) (msg : EventMsg)
    (hdead : e.is_alive = false) (hx : e.external = false) :
    sendF nativeLib e msg = SendResult.noop := by
  cases nativeLib <;> simp [sendF, hdead, hx]

theorem send_dead_noop_witness :
    entDead.is_alive = false ∧ entDead.external = false
    ∧ sendF true entDead { opcode := 1, since := 9 } = SendResult.noop := by
  exact ⟨by decide, by decide,
    send_dead_noop true entDead { opcode := 1, since := 9 } (by decide) (by decide)⟩

theorem is_aliveAt_eq_some (r : Registry) (n : Nat) (e : Entry)
    (hg : getEntry r n = some e) : is_aliveAt r n = e.is_alive := by
  unfold is_aliveAt
  rw [hg]

theorem is_aliveAt_eq_none (r : Registry) (n : Nat)
    (hg : getEntry r n = none) : is_aliveAt r n = false := by
  unfold is_aliveAt
  rw [hg]

theorem is_aliveAt_markDeadAt (r : Registry) (n : Nat) :
    is_aliveAt (markDeadAt r n) n = false := by
  unfold markDeadAt
  cases hg : getEntry r n with
  | none =>
    refine is_aliveAt_eq_none _ _ ?_
    rw [getEntry_modifyEntry, if_pos rfl, hg]
    rfl
  | some e =>
    have hg2 : getEntry (modifyEntry r n fun x => (x.mark_dead).1) n
        = some ((e.mark_dead).1) := by
      rw [getEntry_modifyEntry, if_pos rfl, hg]
      rfl
    rw [is_aliveAt_eq_some _ _ _ hg2, mark_dead_is_alive]

theorem is_aliveAt_modify_mono (r : Registry) (n m : Nat) (f : Entry → Entry)
    (hf : ∀ e : Entry, (f e).is_alive = e.is_alive ∨ (f e).is_alive = false)
    (hfalse : is_aliveAt r m = false) :
    is_aliveAt (modifyEntry r n f) m = false := by
  by_cases hmn : m = n
  · subst hmn
    cases hg : getEntry r m with
    | none =>
      refine is_aliveAt_eq_none _ _ ?_
      rw [getEntry_modifyEntry, if_pos rfl, hg]
      rfl
    | some e =>
      have hg2 : getEntry (modifyEntry r m f) m = some (f e) := by
        rw [getEntry_modifyEntry, if_pos rfl, hg]
        rfl
      rw [is_aliveAt_eq_some _ _ _ hg2]
      have he : e.is_alive = false := by
        rw [is_aliveAt_eq_some _ _ _ hg] at hfalse
        exact hfalse
      rcases hf e with h1 | h1
      · rw [h1]
        exact he
      · exact h1
  · have hg2 : getEntry (modifyEntry r n f) m = getEntry r m := by
      rw [getEntry_modifyEntry, if_neg hmn]
    unfold is_aliveAt at hfalse ⊢
    rw [hg2]
    exact hfalse

theorem regStep_alive_monotone (r1 r2 : Registry) (st : RegStep r1 r2) (m : Nat)
    (hm : m < r1.length) (hfalse : is_aliveAt r1 m = false) :
    is_aliveAt r2 m = false := by
  cases st with
  | mark_dead n =>
    exact is_aliveAt_modify_mono r1 n m _ (fun e => Or.inr (mark_dead_is_alive e)) hfalse
  | assign n f =>
    exact is_aliveAt_modify_mono r1 n m _ (fun e => Or.inl (assignF_snd e f).1) hfalse
  | assign_destructor n f =>
    exact is_aliveAt_modify_mono r1 n m _
      (fun e => Or.inl (assign_destructorF_snd e f).1) hfalse
  | setUserData n v =>
    exact is_aliveAt_modify_mono r1 n m _ (fun e => Or.inl (setUserData_snd e v).1) hfalse
  | create e =>
    unfold is_aliveAt at hfalse ⊢
    rw [getEntry_append r1 [e] m hm]
    exact hfalse

/-- C3: a cloned handle names the very same registry entry, so marking the
entry dead flips liveness to false as observed through the original handle
and through the clone alike, and the alive flag is monotone: no backend
transition ever turns a dead slot live again. -/
theorem clone_shares_entry_alive_monotone (I : Interface) (r : Registry) (h : Resource I) :
    (Resource.cloneF h).entryRef = h.entryRef
    ∧ Resource.is_aliveH (markDeadAt r h.entryRef) h = false
    ∧ Resource.is_aliveH (markDeadAt r h.entryRef) (Resource.cloneF h) = false
    ∧ (∀ r1 r2 : Registry, RegStep r1 r2 → ∀ m : Nat, m < r1.length →
        is_aliveAt r1 m = false → is_aliveAt r2 m = false) := by
  refine ⟨rfl, ?_, ?_, ?_⟩
  · exact is_aliveAt_markDeadAt r h.entryRef
  · exact is_aliveAt_markDeadAt r h.entryRef
  · exact fun r1 r2 st m hm hf => regStep_alive_monotone r1 r2 st m hm hf

/-- C4: handle equality — the `==` backing the `PartialEq` impl, which is
defined as `equals` — holds iff the two handles name the same registry
entry; it is entry identity, not handle identity.  Both `equals` and `eqF`
take their two arguments at the same interface tag `I`, so comparing handles
of different interface types is rejected by the type system. -/
theorem equality_is_entry_identity (I : Interface) (a b : Resource I) :
    ((a == b) = true ↔ a.entryRef = b.entryRef)
    ∧ (a == b) = Resource.equals a b := by
  refine ⟨?_, rfl⟩
  show Resource.eqF a b = true ↔ a.entryRef = b.entryRef
  simp [Resource.eqF, Resource.equals]

/-- C5: under the `native_lib` variant, an externally-owned handle reports
`is_alive() = false`, yet `send` never takes the dead-object no-op branch:
it proceeds to the version check, and when the event's minimum version is
within the version read through from the external owner, the event is
transmitted. -/
theorem send_external_bypasses_liveness (e : Entry) (msg : EventMsg)
    (hx : e.external = true) :
    is_externalF true e = NativeResult.ok true
    ∧ e.is_alive = false
    ∧ sendF true e msg ≠ SendResult.noop
    ∧ (msg.since ≤ e.versionF → sendF true e msg = SendResult.sent msg.opcode) := by
  refine ⟨by simp [is_externalF, hx], by simp [Entry.is_alive, hx], ?_, ?_⟩
  · simp only [sendF, if_true]
    split
    · next hcond =>
        rw [hx] at hcond
        simp at hcond
    · split <;> simp
  · intro hle
    simp [sendF, hx, Nat.not_lt.mpr hle]

theorem send_external_bypasses_liveness_witness :
    entForeign.external = true
    ∧ entForeign.is_alive = false
    ∧ sendF true entForeign { opcode := 4, since := 2 } = SendResult.sent 4 := by
  refine ⟨by decide, ?_, ?_⟩
  · exact (send_external_bypasses_liveness entForeign { opcode := 4, since := 2 }
      (by decide)).2.1
  · exact (send_external_bypasses_liveness entForeign { opcode := 4, since := 2 }
      (by decide)).2.2.2 (by decide)

/-- C6: the request filter and the destructor filter can each be bound at
most once: on an unfiltered entry the first assignment succeeds and stores
the filter, and a second assignment fails and leaves the originally
registered filter in place. -/
theorem filter_single_binding (e : Entry) (f g : Nat)
    (hreq : e.requestFilter = none) (hdes : e.destructorFilter = none) :
    (e.assignF f).1 = true
    ∧ ((e.assignF f).2).requestFilter = some f
    ∧ (((e.assignF f).2).assignF g).1 = false
    ∧ ((((e.assignF f).2).assignF g).2).requestFilter = some f
    ∧ (e.assign_destructorF f).1 = true
    ∧ ((e.assign_destructorF f).2).destructorFilter = some f
    ∧ (((e.assign_destructorF f).2).assign_destructorF g).1 = false
    ∧ ((((e.assign_destructorF f).2).assign_destructorF g).2).destructorFilter = some f := by
  simp [Entry.assignF, Entry.assign_destructorF, hreq, hdes]

theorem filter_single_binding_witness :
    entLive.requestFilter = none ∧ entLive.destructorFilter = none
    ∧ (((entLive.assignF 10).2).assignF 11).1 = false
    ∧ ((((entLive.assignF 10).2).assignF 11).2).requestFilter = some 10 := by
  refine ⟨by decide, by decide, ?_, ?_⟩
  · exact (filter_single_binding entLive 10 11 (by decide) (by decide)).2.2.1
  · exact (filter_single_binding entLive 10 11 (by decide) (by decide)).2.2.2.1

/-- C7: `same_client_as` is false whenever either entry is dead, even when
both objects were created on the identical client connection. -/
theorem same_client_dead (e1 e2 : Entry)
    (hdead : e1.is_alive = false ∨ e2.is_alive = false) :
    Entry.same_client_as e1 e2 = false := by
  unfold Entry.same_client_as
  cases hdead with
  | inl h1 =>
    have hc : e1.clientF = none := by simp [Entry.clientF, h1]
    rw [hc]
  | inr h2 =>
    have hc : e2.clientF = none := by simp [Entry.clientF, h2]
    rw [hc]
    cases e1.clientF <;> rfl

theorem same_client_dead_witness :
    entDead.client = entDead2.client
    ∧ entDead.is_alive = false
    ∧ Entry.same_client_as entDead entDead2 = false := by
  exact ⟨by decide, by decide, same_client_dead entDead entDead2 (Or.inl (by decide))⟩

/-- C8: reading the user-data slot always succeeds (`user_dataF` is total,
dead or alive), a value stored before `mark_dead` is read back identically
afterwards, and `mark_dead` changes only the alive flag — every other field,
the user-data slot included, is untouched. -/
theorem user_data_persistence (e : Entry) (v : Nat) (hunset : e.userData = none) :
    (((e.setUserData v).2.mark_dead).1).user_dataF = some v
    ∧ (∀ d : Entry, ((d.mark_dead).1).user_dataF = d.user_dataF)
    ∧ (∀ d : Entry, (d.mark_dead).1 = { d with alive := false }) := by
  refine ⟨?_, ?_, mark_dead_eq⟩
  · simp [Entry.setUserData, hunset, mark_dead_eq, Entry.user_dataF]
  · intro d
    simp [mark_dead_eq, Entry.user_dataF]

theorem user_data_persistence_witness :
    entLive.userData = none
    ∧ (((entLive.setUserData 42).2.mark_dead).1).user_dataF = some 42 := by
  exact ⟨by decide, (user_data_persistence entLive 42 (by decide)).1⟩

/-- C9: `version()` is 0 on a dead managed entry and on an externally
unmanaged entry without version tracking; on a live managed entry it is the
version negotiated at creation, and no backend transition after creation
ever changes the stored negotiated (or externally tracked) version. -/
theorem version_semantics (e : Entry) :
    (e.external = false → e.alive = false → e.versionF = 0)
    ∧ (e.external = true → e.extVersion = none → e.versionF = 0)
    ∧ (e.is_alive = true → e.versionF = e.version)
    ∧ (∀ d1 d2 : Entry, EntryStep d1 d2 →
        d2.version = d1.version ∧ d2.extVersion = d1.extVersion) := by
  refine ⟨?_, ?_, versionF_of_alive e, ?_⟩
  · intro hx ha
    simp [Entry.versionF, hx, ha]
  · intro hx hv
    simp [Entry.versionF, hx, hv]
  · intro d1 d2 st
    cases st with
    | mark_dead => simp [mark_dead_eq]
    | assign f => exact ⟨(assignF_snd d1 f).2.2.1, (assignF_snd d1 f).2.2.2.1⟩
    | assign_destructor f =>
      exact ⟨(assign_destructorF_snd d1 f).2.2.1, (assign_destructorF_snd d1 f).2.2.2.1⟩
    | setUserData v =>
      exact ⟨(setUserData_snd d1 v).2.2.1, (setUserData_snd d1 v).2.2.2.1⟩

/-- C10: when the `native_lib` feature is not selected, both
native-interop-only methods produce the documented unsupported-operation
panic, whose message names the missing feature, regardless of the entry's
state. -/
theorem native_methods_gated (e : Entry) :
    is_externalF false e = NativeResult.unsupported cInterfacingPanicMsg
    ∧ c_ptrF false e = NativeResult.unsupported cInterfacingPanicMsg
    ∧ cInterfacingPanicMsg =
        "[wayland-server] C interfacing methods are not available without the `native_lib` feature" := by
  exact ⟨rfl, rfl, rfl⟩

end WaylandServer
